import Mathlib

/-!
Shallow embedding of the `Malloc` repository (src/include/Malloc.hpp and
src/src/Malloc.cpp): a page-based allocator with per-size-class bump arenas
and an mmap-backed large-object path.  Addresses are modelled as `Nat`
byte addresses; `size_t` fields as `Nat` (subtractions are only performed
under the guards the code itself establishes, so no wrap occurs); the C++
`int item_count` as `Int`.
-/

/-- `constexpr size_t pageSize = 4096;` -/
def pageSize : Nat := 4096

/-- Byte offset of `MMapObject::m_mmapSize` inside a region header (first field). -/
def offMmapSize : Nat := 0

/-- Byte offset of `MMapObject::m_arenaSize` inside a region header (second
`size_t` field, at offset 8). -/
def offArenaSize : Nat := 8

/-- Byte offset of `Arena::item_count` (an `int`, placed after the two
`size_t` fields of `MMapObject`, at offset 16). -/
def offItemCount : Nat := 16

/-- Byte offset of `Arena::size_remain` (a `size_t`; `item_count` occupies
bytes 16..19 and 4 bytes of padding align this field to offset 24). -/
def offSizeRemain : Nat := 24

/-- `sizeof(Arena)`: `MMapObject` contributes two `size_t` (16 bytes); then
`int item_count` (offset 16, +4 padding), `size_t size_remain` (offset 24),
`char* m_next` (offset 32), and the zero-length `char m_data[0]` at offset 40.
So the arena data area starts 40 bytes into the page. -/
def sizeofArena : Nat := 40

/-- `sizeof(BigAlloc)`: just the `MMapObject` base (two `size_t` fields) plus
the zero-length `char m_data[0]`, i.e. 16 bytes; the payload starts 16 bytes
into the mapping. -/
def sizeofBigAlloc : Nat := 16

/-- Outcome of the `mmap` syscall as seen by `MMapObject::alloc`: either a
fresh zero-initialized page-aligned mapping at some base address, or failure. -/
inductive MmapResult : Type
  | ok (base : Nat)
  | fail
deriving DecidableEq

/-- The `MMapObject` header that `MMapObject::alloc` writes at the start of a
fresh mapping: its base address and the two stored fields. -/
structure MMapObject : Type where
  base : Nat
  m_mmapSize : Nat
  m_arenaSize : Nat
deriving DecidableEq

/-- `MMapObject::alloc(size, arenaSize)` together with the static counter
`s_outstandingPages` (threaded as the second component).  The code increments
the counter first, then calls `mmap`.  Its failure test
`*static_cast<int*>(ptr) == -1 || *static_cast<int*>(ptr) % 8 != 0` reads the
first `int` of the mapping: on a successful anonymous mapping the memory is
zero-initialized, so the test is false and the header is written and returned;
mmap failure is modelled as the function's null return (the only non-success
exit), with no change to the already-incremented counter. -/
def MMapObject.alloc (size arenaSize : Nat) (os : MmapResult) (c : Nat) :
    Option MMapObject × Nat :=
  let c_after := c + 1
  match os with
  | MmapResult.fail => (none, c_after)
  | MmapResult.ok base =>
      (some { base := base, m_mmapSize := size, m_arenaSize := arenaSize }, c_after)

/-- `BigAlloc::alloc(size)` on the successful-mapping path: calls
`MMapObject::alloc(size, 0)` — note it maps exactly `size` bytes — and returns
`&m_data[0]`, the address `sizeofBigAlloc` bytes past the header.  The guard
`sizeof(BigAlloc) % 8 != 0` is statically false.  Returns the user pointer
together with the header written at the mapping's base. -/
def BigAlloc.alloc (base size : Nat) : Nat × MMapObject :=
  (base + sizeofBigAlloc, { base := base, m_mmapSize := size, m_arenaSize := 0 })

/-- The `Arena` overlay: the `MMapObject` fields plus the members the code
declares (`int item_count; size_t size_remain; char* m_next;`).  `base` is the
page-aligned address of the header; the data area `m_data` begins at
`base + sizeofArena`. -/
structure Arena : Type where
  base : Nat
  m_mmapSize : Nat
  m_arenaSize : Nat
  item_count : Int
  size_remain : Nat
  m_next : Nat
deriving DecidableEq

/-- `Arena::create(itemSize)` on the successful-mapping path: maps one page
via `MMapObject::alloc(pageSize, itemSize)` (the guard `sizeof(Arena) % 8 != 0`
is statically false since `sizeofArena = 40`), then sets
`m_next = &m_data[0]`, `item_count = 0` and — as written in the code —
`size_remain = pageSize` (the raw page size, not `pageSize - sizeofArena`). -/
def Arena.create (base : Nat) (itemSize : Nat) : Arena :=
  { base := base
    m_mmapSize := pageSize
    m_arenaSize := itemSize
    item_count := 0
    size_remain := pageSize
    m_next := base + sizeofArena }

/-- `Arena::full()`: `arenaSize() > size_remain`. -/
def Arena.full (a : Arena) : Bool :=
  a.m_arenaSize > a.size_remain

/-- `Arena::alloc()`: if full, null; otherwise subtract the slot size from
`size_remain`, bump `item_count`, advance `m_next` by the slot size and return
the advanced cursor (the code computes `result = m_next + arenaSize()`, stores
it into `m_next`, and returns `m_next` — i.e. the already-advanced address).
The `Nat` subtraction does not wrap: the not-full guard gives
`m_arenaSize ≤ size_remain`. -/
def Arena.alloc (a : Arena) : Option Nat × Arena :=
  if a.full then (none, a)
  else
    let result := a.m_next + a.m_arenaSize
    (some result,
      { a with
        size_remain := a.size_remain - a.m_arenaSize
        item_count := a.item_count + 1
        m_next := result })

/-- Iterates `Arena::alloc` `k` times, collecting the returned addresses. -/
def Arena.allocMany : Nat → Arena → List (Option Nat) × Arena
  | 0, a => ([], a)
  | Nat.succ k, a =>
      let r := a.alloc
      let rest := Arena.allocMany k r.2
      (r.1 :: rest.1, rest.2)

/-- The loop `while(bytes >>= 1) { i <<= 1; arena_index++; }` from
`ArenaStore::alloc`, written with explicit fuel so that it is structurally
recursive; the fuel is initialized to `bytes` itself, which bounds the number
of halvings, so the `fuel = 0` base case is never the exit taken. -/
def classLoopFuel : Nat → Nat → Nat → Nat → Nat × Nat
  | 0, _, i, idx => (i, idx)
  | Nat.succ fuel, bytes, i, idx =>
      if bytes / 2 = 0 then (i, idx)
      else classLoopFuel fuel (bytes / 2) (i * 2) (idx + 1)

/-- The size-class computation inside `ArenaStore::alloc` for `bytes ≤ 1024`:
returns the rounded allocation size and the arena table index.  For
`bytes ≤ 8` the code sets `bytes = 8, arena_index = 0`; otherwise it finds
`i = 2^floor(log2 bytes)` with the shift loop, rounds up to the next power of
two when `i < bytes`, and subtracts 3 from the exponent (for `bytes ≥ 9` the
exponent is at least 4, so the `Nat` subtraction matches the C++ `int`). -/
def ArenaStore.classify (bytes : Nat) : Nat × Nat :=
  if bytes ≤ 8 then (8, 0)
  else
    let tmp := bytes
    let p := classLoopFuel bytes bytes 1 0
    let i := p.1
    let idx := p.2
    let bytes1 := if i < tmp then i * 2 else i
    let idx1 := if i < tmp then idx + 1 else idx
    (bytes1, idx1 - 3)

/-- The `ArenaStore`: `Arena* m_arenas[9]`, value-initialized to null. -/
structure ArenaStore : Type where
  m_arenas : Fin 9 → Option Arena

/-- A fresh `ArenaStore` (all table entries null). -/
def ArenaStore.empty : ArenaStore := ⟨fun _ => none⟩

/-- `ArenaStore::alloc(bytes)` under a successful OS mapping with fresh base
address `freshBase` (supplied by the environment; the claims about this
function all assume the mapping succeeds — on a failed mapping the code would
store the null result of `Arena::create` and dereference it).  For
`bytes > 1024` it defers to `BigAlloc::alloc` and touches no arena.  Otherwise
it computes the class, creates the class's arena if the slot is null, calls
`Arena::alloc` on it (in-place mutation modelled by storing the updated
arena), and nulls the slot when that returns null.  The array access
`m_arenas[arena_index]` is only defined for `arena_index < 9`; the
out-of-bounds case (never reached, see the classify bound) is modelled as a
no-op returning null. -/
def ArenaStore.alloc (st : ArenaStore) (freshBase : Nat) (bytes : Nat) :
    Option Nat × ArenaStore :=
  if bytes > 1024 then
    (some (BigAlloc.alloc freshBase bytes).1, st)
  else
    let p := ArenaStore.classify bytes
    if h : p.2 < 9 then
      let fidx : Fin 9 := ⟨p.2, h⟩
      let arena0 : Arena :=
        match st.m_arenas fidx with
        | some a => a
        | none => Arena.create freshBase p.1
      let r := arena0.alloc
      (r.1, ⟨fun j => if j = fidx then (if r.1 = none then none else some r.2) else st.m_arenas j⟩)
    else
      (none, st)

/-- Runs a list of `(freshBase, bytes)` allocation requests through
`ArenaStore::alloc`, collecting the returned pointers. -/
def ArenaStore.run (st : ArenaStore) : List (Nat × Nat) → List (Option Nat) × ArenaStore
  | [] => ([], st)
  | q :: rest =>
      let r := st.alloc q.1 q.2
      let rr := ArenaStore.run r.2 rest
      (r.1 :: rr.1, rr.2)

/-- States of the global `myArenaStore` reachable by `myMalloc` calls (under
successful OS mappings).  `ArenaStore::free` never writes to the `m_arenas`
array (its body only reads headers and calls `Arena::free` /
`MMapObject::dealloc`), so allocation steps are the only transitions that can
change the table. -/
inductive ArenaStore.Reachable : ArenaStore → Prop
  | init : ArenaStore.Reachable ArenaStore.empty
  | step (st : ArenaStore) (b n : Nat) :
      ArenaStore.Reachable st → ArenaStore.Reachable (st.alloc b n).2

/-- Word-granular memory for the deallocation path: maps a byte address to
the 64-bit word stored there, or `none` if the address is unmapped (in
particular the null page).  Values are `Int` so the C++ `int item_count`
reads are signed. -/
abbrev Mem : Type := Nat → Option Int

/-- Stores one word. -/
def Mem.store (m : Mem) (a : Nat) (v : Int) : Mem :=
  fun x => if x = a then some v else m x

/-- Result of a deallocation-path call: an invalid memory read at the given
address, a `munmap(start, len)` actually issued, or the region kept (an arena
item was freed without releasing the region). -/
inductive FreeResult : Type
  | fault (addr : Nat)
  | unmap (start len : Nat)
  | kept
deriving DecidableEq

/-- `MMapObject::dealloc(obj)`: as written, it casts the passed pointer
directly to `MMapObject*` — no rounding to a page boundary — and calls
`munmap(ptr, ptr->mmapSize())`, i.e. it reads the length at `obj + 0` and
unmaps starting at `obj` itself. -/
def MMapObject.dealloc (m : Mem) (obj : Nat) : FreeResult :=
  match m (obj + offMmapSize) with
  | none => FreeResult.fault (obj + offMmapSize)
  | some sz => FreeResult.unmap obj sz.toNat

/-- `Arena::full()` read from memory at arena header address `a`. -/
def Arena.memFull (m : Mem) (a : Nat) : Option Bool :=
  match m (a + offArenaSize), m (a + offSizeRemain) with
  | some asz, some sr => some (decide (asz.toNat > sr.toNat))
  | _, _ => none

/-- `Arena::free()` at arena header address `a`: decrements `item_count` when
positive, then reports whether `item_count == 0 && full()`.  Returns the flag
and the updated memory, or `none` on an invalid read. -/
def Arena.memFree (m : Mem) (a : Nat) : Option (Bool × Mem) :=
  match m (a + offItemCount) with
  | none => none
  | some ic =>
      let ic1 := if ic > 0 then ic - 1 else ic
      let m1 := m.store (a + offItemCount) ic1
      match Arena.memFull m1 a with
      | none => none
      | some fl => some ((decide (ic1 = 0) && fl), m1)

/-- `ArenaStore::free(ptr)` at the memory level.  The code casts `ptr`
directly to `MMapObject*` and immediately reads `arenaSize()` — the field at
`ptr + 8` — with no null check and no rounding of `ptr` to a page boundary.
If that word is 0 it calls `MMapObject::dealloc(ptr)`; otherwise it treats
`ptr` as an `Arena*`, calls `Arena::free` there, and deallocates when that
returns true.  Returns the resulting action and the post-memory. -/
def ArenaStore.memFree (m : Mem) (ptr : Nat) : FreeResult × Mem :=
  match m (ptr + offArenaSize) with
  | none => (FreeResult.fault (ptr + offArenaSize), m)
  | some asz =>
      if asz = 0 then (MMapObject.dealloc m ptr, m)
      else
        match Arena.memFree m ptr with
        | none => (FreeResult.fault ptr, m)
        | some fm =>
            if fm.1 then (MMapObject.dealloc fm.2 ptr, fm.2)
            else (FreeResult.kept, fm.2)

/-- `myFree(addr)` from src/src/Malloc.cpp: forwards directly to
`myArenaStore.free(addr)` with no null check of its own. -/
def myFree (m : Mem) (ptr : Nat) : FreeResult × Mem :=
  ArenaStore.memFree m ptr

/-- Modelled from the spec, for comparison with the code: `destroy(ptr)`
computes the header address by rounding `ptr` down to the nearest page
boundary, then unmaps exactly `header.totalBytes` bytes starting there. -/
def spec_destroy (m : Mem) (ptr : Nat) : FreeResult :=
  let h := ptr / pageSize * pageSize
  match m (h + offMmapSize) with
  | none => FreeResult.fault (h + offMmapSize)
  | some sz => FreeResult.unmap h sz.toNat

/-- The arena size classes named by the spec and by the comment on
`ArenaStore::m_arenas` (8 up to 1024 bytes). -/
def sizeClasses : List Nat := [8, 16, 32, 64, 128, 256, 512, 1024]

/-- `c` is the smallest size class that accommodates a request of `n` bytes. -/
def isMinClass (n c : Nat) : Prop :=
  c ∈ sizeClasses ∧ n ≤ c ∧ ∀ d ∈ sizeClasses, n ≤ d → c ≤ d

instance (n c : Nat) : Decidable (isMinClass n c) := by
  unfold isMinClass
  infer_instance

/-- Concrete memory for the deallocation counterexample: the large-allocation
region that `allocate(2000)` builds at page base 4096 (header words
`m_mmapSize = 2000`, `m_arenaSize = 0`), with the user payload at 4112
holding arbitrary data (first payload word 5, second payload word 0). -/
def c2mem : Mem := fun a =>
  if a = 4096 then some 2000
  else if a = 4104 then some 0
  else if a = 4112 then some 5
  else if a = 4120 then some 0
  else none

/-- Memory with nothing mapped (in particular the null page is invalid). -/
def nullMem : Mem := fun _ => none

/-- C1: REFUTED by the code.  `Arena::create(1024)` initializes `size_remain`
to the raw `pageSize` (4096), not `pageSize - sizeofArena`; consequently the
arena issues 4 slots — more than `floor((pageSize - sizeofArena)/1024) = 3` —
and the 4th issued slot starts at 8232, at or past the page end
`4096 + pageSize = 8192`, so it overlaps memory beyond the mapped page. -/
theorem arena_create_size_remain_overruns_page :
    (Arena.create 4096 1024).size_remain = pageSize ∧
    pageSize ≠ pageSize - sizeofArena ∧
    (Arena.allocMany 4 (Arena.create 4096 1024)).1 =
      [some 5160, some 6184, some 7208, some 8232] ∧
    4 > (pageSize - sizeofArena) / 1024 ∧
    8232 + 1024 > 4096 + pageSize := by
  refine ⟨rfl, by decide, by decide, by decide, by decide⟩

/-- C3: REFUTED by the code.  On a fresh arena with 8-byte slots at page base
4096, the data area starts at `4096 + sizeofArena = 4136`, but the first
`Arena::alloc` call returns 4144 = data area + 8: the cursor is advanced
before being returned, so the first slot (offset 0) is never handed out. -/
theorem arena_first_alloc_skips_slot_zero :
    ((Arena.create 4096 8).alloc).1 = some (4096 + sizeofArena + 8) ∧
    (4096 + sizeofArena + 8 : Nat) ≠ 4096 + sizeofArena := by
  exact ⟨by decide, by decide⟩

/-- C2: REFUTED by the code.  For the pointer 4112 returned by
`allocate(2000)` (large path, region at page base 4096), `ArenaStore::free`
reads the header fields at the user pointer itself: the word at 4120 (user
payload, here 0) is taken for `slotSize` and the word at 4112 (user payload,
here 5) for `totalBytes`, so the code unmaps 5 bytes starting at 4112 —
whereas rounding down to the page boundary as the claim states would unmap
2000 bytes starting at 4096. -/
theorem free_reads_header_at_user_pointer :
    (ArenaStore.memFree c2mem 4112).1 = FreeResult.unmap 4112 5 ∧
    spec_destroy c2mem 4112 = FreeResult.unmap 4096 2000 ∧
    FreeResult.unmap 4112 5 ≠ FreeResult.unmap 4096 2000 := by
  exact ⟨by decide, by decide, by decide⟩

/-- C4: REFUTED by the code.  `BigAlloc::alloc(2000)` maps a region of
exactly 2000 bytes (`MMapObject::alloc(size, 0)` — not `size + sizeofBigAlloc`),
writes `m_arenaSize = 0`, and returns 4112 (just past the header), so the
enclosing region's total size is 2000, which is smaller than
`2000 + sizeofBigAlloc`. -/
theorem bigalloc_region_misses_header_bytes :
    (BigAlloc.alloc 4096 2000).1 = 4096 + sizeofBigAlloc ∧
    (BigAlloc.alloc 4096 2000).2.m_arenaSize = 0 ∧
    (BigAlloc.alloc 4096 2000).2.m_mmapSize = 2000 ∧
    2000 < 2000 + sizeofBigAlloc := by
  exact ⟨by decide, by decide, by decide, by decide⟩

/-- C7: PARTLY REFUTED by the code.  The pointer returned by
`allocate(2000)` (large path, page base 4096) is 8-byte aligned, but it does
not point to 2000 usable bytes inside its region: the region is
`[4096, 4096 + 2000)` while the payload starts at 4112, so
`4112 + 2000 = 6112` lies past the region end 6096 — only 1984 bytes of the
request fit inside the mapping. -/
theorem allocate_payload_exceeds_region :
    (BigAlloc.alloc 4096 2000).1 % 8 = 0 ∧
    (BigAlloc.alloc 4096 2000).1 + 2000 >
      (BigAlloc.alloc 4096 2000).2.base + (BigAlloc.alloc 4096 2000).2.m_mmapSize := by
  exact ⟨by decide, by decide⟩

/-- C8: REFUTED by the code.  `MMapObject::alloc` executes
`s_outstandingPages++` before the `mmap` call and never undoes it on the
failure path: with the counter at 0 and a failing mapping, the call returns
null but leaves the counter at 1, not 0. -/
theorem mmapobject_alloc_counts_failed_mapping :
    MMapObject.alloc pageSize 8 MmapResult.fail 0 = (none, 1) ∧ (1 : Nat) ≠ 0 := by
  exact ⟨by decide, by decide⟩

/-- C9: REFUTED by the code.  `myFree(nullptr)` forwards to
`ArenaStore::free`, which immediately reads the `arenaSize` field of the
null pointer — the word at address `0 + offArenaSize = 8` in the unmapped
null page — with no null check, faulting instead of being a no-op. -/
theorem myfree_null_dereferences_null_page :
    (myFree nullMem 0).1 = FreeResult.fault 8 := by
  decide

/-- C5: REFUTED by the code.  Five successive `allocate(1024)` requests on a
fresh store (successful OS mappings at page bases 4096, 8192, ...): the first
four calls are served from the class-1024 arena created at 4096, the fourth
exhausts it, and the fifth call — the very next request after exhaustion —
returns null (the dispatcher nulls the table slot and propagates the null)
instead of transparently creating a fresh arena. -/
theorem exhausted_arena_next_request_returns_null :
    (ArenaStore.run ArenaStore.empty
      [(4096, 1024), (8192, 1024), (12288, 1024), (16384, 1024), (20480, 1024)]).1 =
      [some 5160, some 6184, some 7208, some 8232, none] := by
  decide

/-- Pointwise update of the arena table (models the C++ array store
`m_arenas[arena_index] = ...`). -/
def ArenaStore.set (st : ArenaStore) (fidx : Fin 9) (v : Option Arena) : ArenaStore :=
  ⟨fun j => if j = fidx then v else st.m_arenas j⟩

theorem ArenaStore.set_m_arenas_ne (st : ArenaStore) (fidx : Fin 9) (v : Option Arena)
    (j : Fin 9) (hne : j ≠ fidx) : (st.set fidx v).m_arenas j = st.m_arenas j := by
  simp [ArenaStore.set, hne]

set_option maxRecDepth 100000

/-- The index computed by the dispatcher for an arena-path request is always
below 8 (classes 8..1024 occupy table entries 0..7). -/
theorem classify_index_bound : ∀ n, n ≤ 1024 → (ArenaStore.classify n).2 < 8 := by
  decide

/-- `ArenaStore::alloc` never writes table entry 8: the only entry written is
the computed class index, which is below 8. -/
theorem alloc_keeps_last_slot (st : ArenaStore) (b n : Nat) (h8 : (8 : Nat) < 9) :
    (st.alloc b n).2.m_arenas ⟨8, h8⟩ = st.m_arenas ⟨8, h8⟩ := by
  simp only [ArenaStore.alloc]
  split
  · rfl
  next hn =>
    split
    next h9 =>
      have hlt : (ArenaStore.classify n).2 < 8 := classify_index_bound n (by omega)
      show (if (⟨8, h8⟩ : Fin 9) = ⟨(ArenaStore.classify n).2, h9⟩ then _ else st.m_arenas ⟨8, h8⟩)
        = st.m_arenas ⟨8, h8⟩
      rw [if_neg]
      intro heq
      have hv : (8 : Nat) = (ArenaStore.classify n).2 := congrArg Fin.val heq
      omega
    next => rfl

/-- C10: CONFIRMED.  The dispatcher's index computation only produces indices
0 through 7 for arena-path requests, and in every store state reachable by
allocation steps (frees never write the table) the ninth table entry,
`m_arenas[8]`, remains null. -/
theorem arena_table_entry_8_never_assigned :
    (∀ n, n ≤ 1024 → (ArenaStore.classify n).2 ≤ 7) ∧
    (∀ st, ArenaStore.Reachable st → ∀ h8 : (8 : Nat) < 9, st.m_arenas ⟨8, h8⟩ = none) := by
  constructor
  · intro n hn
    have := classify_index_bound n hn
    omega
  · intro st hst h8
    induction hst with
    | init => rfl
    | step st b n hr ih =>
        rw [alloc_keeps_last_slot st b n h8]
        exact ih

/-- Witness for C10 at concrete inputs: the class of a 1024-byte request has
index ≤ 7, and after one allocation from a fresh store entry 8 is still null. -/
theorem arena_table_entry_8_never_assigned_witness :
    (ArenaStore.classify 1024).2 ≤ 7 ∧
    (ArenaStore.empty.alloc 4096 8).2.m_arenas ⟨8, by omega⟩ = none :=
  ⟨arena_table_entry_8_never_assigned.1 1024 (by omega),
   arena_table_entry_8_never_assigned.2 _
     (ArenaStore.Reachable.step ArenaStore.empty 4096 8 ArenaStore.Reachable.init)
     (by omega)⟩

/-- C6: CONFIRMED.  The dispatcher routes every request correctly: a
zero-byte request is classified into the smallest class (8 bytes) and is
served a slot (not refused) — from a fresh store it returns the class-8
arena's first issued address; for every `n` in 1..1024 the chosen class is
the smallest size class ≥ `n`; and every `n > 1024` bypasses the arenas,
going straight to `BigAlloc::alloc` with the store untouched. -/
theorem dispatch_routes_requests_correctly :
    ((ArenaStore.classify 0).1 = 8 ∧
      ∀ b, (ArenaStore.empty.alloc b 0).1 = some (b + sizeofArena + 8)) ∧
    (∀ n, n ≤ 1024 → 1 ≤ n → isMinClass n (ArenaStore.classify n).1) ∧
    (∀ n, n > 1024 → ∀ st b, ArenaStore.alloc st b n = (some (BigAlloc.alloc b n).1, st)) := by
  refine ⟨⟨rfl, ?_⟩, ?_, ?_⟩
  · intro b
    rfl
  · decide
  · intro n hn st b
    unfold ArenaStore.alloc
    rw [if_pos hn]

/-- Witness for C6 at concrete inputs: `allocate(0)` from a fresh store at
page base 4096 returns the slot address 4144; class 100 maps to the smallest
class ≥ 100 (i.e. 128); and `allocate(2000)` goes to the large path. -/
theorem dispatch_routes_requests_correctly_witness :
    (ArenaStore.empty.alloc 4096 0).1 = some (4096 + sizeofArena + 8) ∧
    isMinClass 100 (ArenaStore.classify 100).1 ∧
    ArenaStore.alloc ArenaStore.empty 4096 2000 =
      (some (BigAlloc.alloc 4096 2000).1, ArenaStore.empty) :=
  ⟨dispatch_routes_requests_correctly.1.2 4096,
   dispatch_routes_requests_correctly.2.1 100 (by omega) (by omega),
   dispatch_routes_requests_correctly.2.2 2000 (by omega) ArenaStore.empty 4096⟩
